import Mathlib

/-!
Verification of the animal-report mobile client.

The repository has two source files:

* `app/config/backend.ts` — the Backend URL Resolver:
  `getBackendBaseUrl()` resolves `process.env.EXPO_PUBLIC_BACKEND_URL`,
  then `Constants.expoConfig?.extra?.backendUrl`, then a hardcoded
  fallback, and strips trailing slashes; `getReportUrl()` appends
  `/report`.

* `app/(tabs)/index.tsx` — the Report Screen: an inline
  `BACKEND_URL` computation and the `requestAndSend` handler that
  requests location permission, reads the position, POSTs a JSON
  Report, and shows alerts.

We embed both shallowly.  The ambient configuration
(`process.env.EXPO_PUBLIC_BACKEND_URL` and the Expo manifest extra) is
a `Config` record; the outcomes of the three awaited external calls of
`requestAndSend` (permission request, position read, fetch) are fields
of a `ScreenEnv` record, and `requestAndSend` becomes a pure function
from that record to the observable outcome (alerts shown, network
requests issued, errors logged, final loading flag).
-/

namespace AnimalReport

/-- Ambient configuration seen by the app.
`envBackendUrl` models `process.env.EXPO_PUBLIC_BACKEND_URL`
(`none` = variable unset); `manifestBackendUrl` models
`Constants.expoConfig?.extra?.backendUrl` (`none` = absent). -/
structure Config where
  envBackendUrl : Option String
  manifestBackendUrl : Option String
  deriving Repr, DecidableEq

/-- JavaScript `a || b` for an optional string `a`: `undefined` and the
empty string are falsy, every other string is truthy. -/
def jsOr (a : Option String) (b : String) : String :=
  match a with
  | none => b
  | some s => if s = "" then b else s

/-- `.replace(/\/+$/, "")` on the reversed character list: drop the
leading run of slashes. -/
def dropLeadingSlashes : List Char → List Char
  | [] => []
  | c :: cs => if c = '/' then dropLeadingSlashes cs else c :: cs

/-- `s.replace(/\/+$/, "")`: remove every trailing `/`. -/
def stripTrailingSlashes (s : String) : String :=
  ⟨(dropLeadingSlashes s.data.reverse).reverse⟩

/-- `const FALLBACK = "https://animal-report-api.onrender.com"`
in `config/backend.ts` (the same literal appears inline in
`index.tsx`). -/
def FALLBACK : String := "https://animal-report-api.onrender.com"

/-- `getBackendBaseUrl()` from `config/backend.ts`:
`envUrl = process.env.EXPO_PUBLIC_BACKEND_URL || extra.backendUrl || FALLBACK`,
then trailing slashes removed. -/
def getBackendBaseUrl (c : Config) : String :=
  stripTrailingSlashes (jsOr c.envBackendUrl (jsOr c.manifestBackendUrl FALLBACK))

/-- `getReportUrl()` from `config/backend.ts`. -/
def getReportUrl (c : Config) : String :=
  getBackendBaseUrl c ++ "/report"

/-- Inline in `index.tsx`:
`const BACKEND_BASE_URL = process.env.EXPO_PUBLIC_BACKEND_URL || "https://animal-report-api.onrender.com"`.
Note: unlike the resolver, it does not consult the manifest extra. -/
def BACKEND_BASE_URL (c : Config) : String :=
  jsOr c.envBackendUrl "https://animal-report-api.onrender.com"

/-- Inline in `index.tsx`:
`const BACKEND_URL = BACKEND_BASE_URL.replace(/\/+$/, "") + "/report"`. -/
def BACKEND_URL (c : Config) : String :=
  stripTrailingSlashes (BACKEND_BASE_URL c) ++ "/report"

/-- Truthiness of a candidate URL source, as JavaScript `||` sees it:
present and non-empty. -/
def isNonEmptySource : Option String → Bool
  | none => false
  | some s => s ≠ ""

/-- Spec-side choice function, written from the spec's words only
("Precedence: (1) an explicit environment-configured URL, (2) an
optional value from app configuration metadata, (3) a hardcoded
fallback URL. Whichever source yields the first non-empty value
wins."), to be compared with `getBackendBaseUrl`. -/
def specWinningSource (c : Config) : String :=
  if isNonEmptySource c.envBackendUrl then c.envBackendUrl.getD ""
  else if isNonEmptySource c.manifestBackendUrl then c.manifestBackendUrl.getD ""
  else FALLBACK

/-- Coordinates of a position fix (`loc.coords`).  The screen never
computes with them — they pass through unchanged into the payload — so
an integer carrier stands in for the device's floating-point values. -/
structure Coords where
  latitude : Int
  longitude : Int
  deriving Repr, DecidableEq

/-- Result of `Location.getCurrentPositionAsync({})`. -/
structure Position where
  coords : Coords
  deriving Repr, DecidableEq

/-- A `fetch` response as consumed by the screen: its numeric status
and its body already read as text (`resp.status`, `await resp.text()`). -/
structure HttpResponse where
  status : Nat
  text : String
  deriving Repr, DecidableEq

/-- `resp.ok` of the Fetch API: status in 200–299. -/
def respOk (r : HttpResponse) : Bool :=
  200 ≤ r.status && r.status ≤ 299

/-- The payload object built in `requestAndSend` and serialized as the
POST body. -/
structure Report where
  type : String
  latitude : Int
  longitude : Int
  timestamp : String
  deriving Repr, DecidableEq

/-- One outbound HTTP request as issued by the screen. -/
structure NetworkRequest where
  url : String
  method : String
  contentType : String
  payload : Report
  deriving Repr, DecidableEq

/-- Outcomes of the awaited external calls during one invocation of
`requestAndSend`, together with the ambient configuration and clock.
`positionResult` / `fetchResult` use `Except String` because both
awaited calls can reject (caught by the surrounding `try`). -/
structure ScreenEnv where
  config : Config
  permStatus : String
  positionResult : Except String Position
  fetchResult : Except String HttpResponse
  nowISO : String
  deriving Repr

/-- Observable outcome of one invocation of `requestAndSend`:
alerts shown in order (title, message), network requests issued in
order, number of `console.log(err)` calls, and the final value of the
`loading` flag. -/
structure Outcome where
  alerts : List (String × String)
  requests : List NetworkRequest
  errorsLogged : Nat
  loadingFinal : Bool
  deriving Repr, DecidableEq

/-- Alert of the permission-denied branch. -/
def permissionAlert : String × String :=
  ("Permission needed", "Location access is required to report animals.")

/-- Alert of the success path. -/
def successAlert : String × String :=
  ("Thank you", "Report sent successfully.")

/-- Alert of the `catch` block. -/
def errorAlert : String × String :=
  ("Error", "Could not send report.")

/-- The `catch`/`finally` tail of `requestAndSend`: log the error,
show the generic alert, and let `finally` clear `loading`. -/
def catchOutcome (requests : List NetworkRequest) : Outcome :=
  { alerts := [errorAlert], requests := requests, errorsLogged := 1
    loadingFinal := false }

/-- `requestAndSend(type)` from `index.tsx`, step by step:
set `loading`, await the permission request, bail out with an alert if
not granted, await the position, build the payload, `fetch` the inline
`BACKEND_URL` with a JSON POST, read the body text, throw on `!resp.ok`,
alert success; any rejection lands in `catch` (log + error alert) and
`finally` clears `loading` on every path. -/
def requestAndSend (env : ScreenEnv) (type : String) : Outcome :=
  if env.permStatus ≠ "granted" then
    { alerts := [permissionAlert], requests := [], errorsLogged := 0
      loadingFinal := false }
  else
    match env.positionResult with
    | .error _ => catchOutcome []
    | .ok loc =>
      let payload : Report :=
        { type := type
          latitude := loc.coords.latitude
          longitude := loc.coords.longitude
          timestamp := env.nowISO }
      let req : NetworkRequest :=
        { url := BACKEND_URL env.config, method := "POST"
          contentType := "application/json", payload := payload }
      match env.fetchResult with
      | .error _ => catchOutcome [req]
      | .ok resp =>
        if !respOk resp then catchOutcome [req]
        else
          { alerts := [successAlert], requests := [req], errorsLogged := 0
            loadingFinal := false }

/-- The two `ReportButton`s rendered by `HomeScreen`: label and the
argument their `onPress` passes to `requestAndSend`. -/
def homeScreenButtons : List (String × String) :=
  [("Sleeping Animal", "dead"), ("Injured Animal", "injured")]

/-- Outcome of pressing the button with the given label: look its
report type up among `HomeScreen`'s buttons and invoke
`requestAndSend` with it. -/
def pressButton (env : ScreenEnv) (label : String) : Option Outcome :=
  (homeScreenButtons.lookup label).map (requestAndSend env)

/-! ## Helper lemmas -/

/-- `dropLeadingSlashes` removes exactly the leading run of slashes:
the input is that run followed by the output, and the output does not
start with a slash. -/
lemma dropLeadingSlashes_spec (l : List Char) :
    ∃ k : Nat, l = List.replicate k '/' ++ dropLeadingSlashes l ∧
      (dropLeadingSlashes l).head? ≠ some '/' := by
  induction l with
  | nil => exact ⟨0, rfl, by simp [dropLeadingSlashes]⟩
  | cons c cs ih =>
    by_cases hc : c = '/'
    · obtain ⟨k, h1, h2⟩ := ih
      refine ⟨k + 1, ?_, ?_⟩
      · simp [dropLeadingSlashes, hc, List.replicate_succ]
        exact h1
      · simpa [dropLeadingSlashes, hc] using h2
    · refine ⟨0, ?_, ?_⟩
      · simp [dropLeadingSlashes, hc]
      · simp [dropLeadingSlashes, hc]

/-- `stripTrailingSlashes` removes exactly the trailing run of slashes
and leaves the rest of the string unchanged. -/
lemma stripTrailingSlashes_spec (s : String) :
    ∃ k : Nat,
      s = stripTrailingSlashes s ++ String.mk (List.replicate k '/') ∧
      (stripTrailingSlashes s).data.reverse.head? ≠ some '/' := by
  obtain ⟨k, h1, h2⟩ := dropLeadingSlashes_spec s.data.reverse
  refine ⟨k, ?_, ?_⟩
  · apply String.ext
    show s.data = (dropLeadingSlashes s.data.reverse).reverse ++ List.replicate k '/'
    have := congrArg List.reverse h1
    simpa [List.reverse_append, List.reverse_replicate] using this
  · simpa [stripTrailingSlashes] using h2

/-- The resolver agrees with the spec-side precedence choice followed
by slash stripping. -/
lemma getBackendBaseUrl_eq_strip_spec (c : Config) :
    getBackendBaseUrl c = stripTrailingSlashes (specWinningSource c) := by
  rcases c with ⟨env, man⟩
  cases env <;> cases man <;>
    simp only [getBackendBaseUrl, specWinningSource, jsOr, isNonEmptySource,
      Option.getD] <;>
    split_ifs <;> simp_all

/-! ## Claim theorems -/

/-- C2: `getBackendBaseUrl()` picks, in priority order, the environment
URL, then the manifest extra, then the hardcoded fallback; the first
non-empty source wins (an empty or absent higher-priority source falls
through), and the winner is then slash-stripped. -/
theorem c2_precedence_first_non_empty_wins (c : Config) :
    getBackendBaseUrl c = stripTrailingSlashes (specWinningSource c) :=
  getBackendBaseUrl_eq_strip_spec c

/-- C3: for every configuration, the winning source value equals the
resolved base followed by some number of slashes, and the resolved base
itself has no trailing slash (so the resolver strips exactly the
trailing slashes and is otherwise the winning value unchanged);
moreover with environment URL "https://example.com/" the base resolves
to "https://example.com" and the report URL to
"https://example.com/report". -/
theorem c3_strips_trailing_slashes_only :
    (∀ c : Config, ∃ k : Nat,
        specWinningSource c =
          getBackendBaseUrl c ++ String.mk (List.replicate k '/') ∧
        (getBackendBaseUrl c).data.reverse.head? ≠ some '/') ∧
    getBackendBaseUrl ⟨some "https://example.com/", none⟩ = "https://example.com" ∧
    getReportUrl ⟨some "https://example.com/", none⟩ = "https://example.com/report" := by
  refine ⟨fun c => ?_, rfl, rfl⟩
  obtain ⟨k, h1, h2⟩ := stripTrailingSlashes_spec (specWinningSource c)
  rw [getBackendBaseUrl_eq_strip_spec c]
  exact ⟨k, h1, h2⟩

/-- C4: for every configuration, `getReportUrl()` is exactly
`getBackendBaseUrl()` with the literal "/report" appended. -/
theorem c4_report_url_is_base_append_report (c : Config) :
    getReportUrl c = getBackendBaseUrl c ++ "/report" := rfl

/-- C9: with an environment URL consisting only of a slash, the
resolver returns the empty string as base and "/report" as the report
URL — it guarantees a string, not a well-formed URL. -/
theorem c9_slash_only_env_gives_empty_base :
    getBackendBaseUrl ⟨some "/", none⟩ = "" ∧
    getReportUrl ⟨some "/", none⟩ = "/report" :=
  ⟨rfl, rfl⟩

/-- The `finally` block clears `loading` on every exit path. -/
lemma loadingFinal_false (env : ScreenEnv) (type : String) :
    (requestAndSend env type).loadingFinal = false := by
  unfold requestAndSend
  split
  · rfl
  · split
    · rfl
    · split
      · rfl
      · split <;> rfl

/-- Every request issued by `requestAndSend` targets the screen's
inline `BACKEND_URL`. -/
lemma requests_url_eq (env : ScreenEnv) (type : String) :
    ∀ r ∈ (requestAndSend env type).requests, r.url = BACKEND_URL env.config := by
  intro r hr
  unfold requestAndSend at hr
  split at hr
  · simp at hr
  · split at hr
    · simp [catchOutcome] at hr
    · split at hr
      · simp [catchOutcome] at hr
        simp [hr]
      · split at hr <;> simp [catchOutcome] at hr <;> simp [hr]

/-- At most one request is issued per invocation. -/
lemma requests_length_le_one (env : ScreenEnv) (type : String) :
    (requestAndSend env type).requests.length ≤ 1 := by
  unfold requestAndSend
  split
  · simp
  · split
    · simp [catchOutcome]
    · split
      · simp [catchOutcome]
      · split <;> simp [catchOutcome]

/-- When the inline computation and the resolver cannot disagree —
the environment URL is non-empty, or the manifest extra is absent or
empty — the two URLs coincide. -/
lemma screen_url_eq_report_url (c : Config)
    (h : isNonEmptySource c.envBackendUrl = true ∨
         isNonEmptySource c.manifestBackendUrl = false) :
    BACKEND_URL c = getReportUrl c := by
  rcases c with ⟨env, man⟩
  cases env <;> cases man <;>
    simp_all [BACKEND_URL, BACKEND_BASE_URL, getReportUrl, getBackendBaseUrl,
      jsOr, isNonEmptySource, FALLBACK]
  all_goals split_ifs <;> simp_all

/-- Concrete environment refuting C1: the env variable is unset and
the manifest extra holds a non-empty URL. -/
def c1BadEnv : ScreenEnv :=
  { config := ⟨none, some "https://other.example"⟩
    permStatus := "granted"
    positionResult := .ok ⟨⟨1, 2⟩⟩
    fetchResult := .ok ⟨200, "ok"⟩
    nowISO := "2026-10-11T00:00:00.000Z" }

/-- C1 counterexample: with the env variable unset and the manifest
extra set to "https://other.example", the screen POSTs to the fallback
report URL while the resolver's report URL is
"https://other.example/report" — the two strings differ. -/
theorem c1_counterexample :
    (requestAndSend c1BadEnv "dead").requests.map NetworkRequest.url
      = ["https://animal-report-api.onrender.com/report"] ∧
    getReportUrl c1BadEnv.config = "https://other.example/report" ∧
    BACKEND_URL c1BadEnv.config ≠ getReportUrl c1BadEnv.config := by
  refine ⟨rfl, rfl, ?_⟩
  decide

/-- C1 (amended): whenever the environment URL is non-empty or the
manifest extra is absent or empty, the screen's inline `BACKEND_URL`
equals `getReportUrl()` and every request `requestAndSend` POSTs goes
to `getReportUrl()`; when the env URL is unset/empty and the manifest
extra is non-empty the two computations differ (the screen ignores the
manifest extra). -/
theorem c1_screen_posts_to_resolver_url (env : ScreenEnv) (type : String)
    (h : isNonEmptySource env.config.envBackendUrl = true ∨
         isNonEmptySource env.config.manifestBackendUrl = false) :
    BACKEND_URL env.config = getReportUrl env.config ∧
    ((requestAndSend env type).requests.map NetworkRequest.url).all
      (fun u => u == getReportUrl env.config) = true := by
  have hurl := screen_url_eq_report_url env.config h
  refine ⟨hurl, ?_⟩
  rw [List.all_eq_true]
  intro u hu
  rw [beq_iff_eq]
  obtain ⟨r, hr, rfl⟩ := List.mem_map.mp hu
  rw [← hurl]
  exact requests_url_eq env type r hr

/-- Concrete environment for the C1 witness: env URL set (with a
trailing slash), no manifest extra. -/
def c1GoodEnv : ScreenEnv :=
  { config := ⟨some "https://example.com/", none⟩
    permStatus := "granted"
    positionResult := .ok ⟨⟨1, 2⟩⟩
    fetchResult := .ok ⟨200, "ok"⟩
    nowISO := "2026-10-11T00:00:00.000Z" }

/-- Witness for the amended C1 at a concrete configuration. -/
theorem c1_screen_posts_to_resolver_url_witness :
    BACKEND_URL c1GoodEnv.config = getReportUrl c1GoodEnv.config ∧
    ((requestAndSend c1GoodEnv "dead").requests.map NetworkRequest.url).all
      (fun u => u == getReportUrl c1GoodEnv.config) = true :=
  c1_screen_posts_to_resolver_url c1GoodEnv "dead" (Or.inl (by decide))

/-- C5: when the permission request does not return "granted", the
invocation shows exactly the permission alert, issues no network
request, logs nothing, and ends with `loading` false. -/
theorem c5_permission_denied_no_request (env : ScreenEnv) (type : String)
    (h : env.permStatus ≠ "granted") :
    requestAndSend env type =
      { alerts := [permissionAlert], requests := [], errorsLogged := 0
        loadingFinal := false } := by
  unfold requestAndSend
  rw [if_pos h]

/-- Concrete environment with permission denied. -/
def c5Env : ScreenEnv :=
  { config := ⟨none, none⟩
    permStatus := "denied"
    positionResult := .error "unused"
    fetchResult := .error "unused"
    nowISO := "2026-10-11T00:00:00.000Z" }

/-- Witness for C5 at a concrete denied-permission environment. -/
theorem c5_permission_denied_no_request_witness :
    requestAndSend c5Env "dead" =
      { alerts := [permissionAlert], requests := [], errorsLogged := 0
        loadingFinal := false } :=
  c5_permission_denied_no_request c5Env "dead" (by decide)

/-- C6: with permission granted, a position fix, and a response whose
status is in 200–299, the success alert is shown exactly once, the
error alert is not shown, and `loading` ends false. -/
theorem c6_success_alert_once (env : ScreenEnv) (type : String)
    (loc : Position) (resp : HttpResponse)
    (hperm : env.permStatus = "granted")
    (hloc : env.positionResult = .ok loc)
    (hresp : env.fetchResult = .ok resp)
    (hlo : 200 ≤ resp.status) (hhi : resp.status ≤ 299) :
    (requestAndSend env type).alerts = [successAlert] ∧
    (requestAndSend env type).alerts.count successAlert = 1 ∧
    errorAlert ∉ (requestAndSend env type).alerts ∧
    (requestAndSend env type).loadingFinal = false := by
  have hok : respOk resp = true := by
    simp only [respOk, Bool.and_eq_true, decide_eq_true_eq]
    exact ⟨hlo, hhi⟩
  have hout : requestAndSend env type =
      { alerts := [successAlert]
        requests := [{ url := BACKEND_URL env.config, method := "POST"
                       contentType := "application/json"
                       payload := { type := type
                                    latitude := loc.coords.latitude
                                    longitude := loc.coords.longitude
                                    timestamp := env.nowISO } }]
        errorsLogged := 0, loadingFinal := false } := by
    unfold requestAndSend
    rw [if_neg (by simp [hperm]), hloc, hresp]
    simp [hok]
  rw [hout]
  refine ⟨rfl, rfl, ?_, rfl⟩
  simp [successAlert, errorAlert]

/-- Concrete environment with permission granted and a 200 response. -/
def c6Env : ScreenEnv :=
  { config := ⟨none, none⟩
    permStatus := "granted"
    positionResult := .ok ⟨⟨47, 8⟩⟩
    fetchResult := .ok ⟨200, "created"⟩
    nowISO := "2026-10-11T00:00:00.000Z" }

/-- Witness for C6 at a concrete successful environment. -/
theorem c6_success_alert_once_witness :
    (requestAndSend c6Env "injured").alerts = [successAlert] ∧
    (requestAndSend c6Env "injured").alerts.count successAlert = 1 ∧
    errorAlert ∉ (requestAndSend c6Env "injured").alerts ∧
    (requestAndSend c6Env "injured").loadingFinal = false :=
  c6_success_alert_once c6Env "injured" ⟨⟨47, 8⟩⟩ ⟨200, "created"⟩
    rfl rfl rfl (by decide) (by decide)

/-- C7: with permission granted, if the position read throws, or the
fetch throws, or the response status is not 2xx, then the error is
logged once, the generic error alert is shown, and `loading` ends
false; and on every invocation whatsoever the `finally` cleanup leaves
`loading` false. -/
theorem c7_error_logged_and_cleanup (env : ScreenEnv) (type : String)
    (hperm : env.permStatus = "granted")
    (herr : (∃ e, env.positionResult = .error e) ∨
            (∃ e, env.fetchResult = .error e) ∨
            (∃ resp, env.fetchResult = .ok resp ∧ respOk resp = false)) :
    (requestAndSend env type).errorsLogged = 1 ∧
    (requestAndSend env type).alerts = [errorAlert] ∧
    (requestAndSend env type).loadingFinal = false ∧
    (∀ env2 : ScreenEnv, ∀ t2 : String,
      (requestAndSend env2 t2).loadingFinal = false) := by
  suffices main : (requestAndSend env type).errorsLogged = 1 ∧
      (requestAndSend env type).alerts = [errorAlert] ∧
      (requestAndSend env type).loadingFinal = false from
    ⟨main.1, main.2.1, main.2.2, loadingFinal_false⟩
  have hcatch : ∀ reqs, (catchOutcome reqs).errorsLogged = 1 ∧
      (catchOutcome reqs).alerts = [errorAlert] ∧
      (catchOutcome reqs).loadingFinal = false := fun _ => ⟨rfl, rfl, rfl⟩
  cases hpos : env.positionResult with
  | error e =>
    have hout : requestAndSend env type = catchOutcome [] := by
      unfold requestAndSend
      rw [if_neg (by simp [hperm]), hpos]
    rw [hout]
    exact hcatch []
  | ok loc =>
    cases hf : env.fetchResult with
    | error e =>
      have hout : ∃ reqs, requestAndSend env type = catchOutcome reqs := by
        unfold requestAndSend
        rw [if_neg (by simp [hperm]), hpos, hf]
        exact ⟨_, rfl⟩
      obtain ⟨reqs, hout⟩ := hout
      rw [hout]
      exact hcatch reqs
    | ok resp =>
      have hbad : respOk resp = false := by
        rcases herr with ⟨e, he⟩ | ⟨e, he⟩ | ⟨r, hr, hrbad⟩
        · rw [hpos] at he
          exact absurd he (by simp)
        · rw [hf] at he
          exact absurd he (by simp)
        · rw [hf] at hr
          cases hr
          exact hrbad
      have hout : ∃ reqs, requestAndSend env type = catchOutcome reqs := by
        unfold requestAndSend
        rw [if_neg (by simp [hperm]), hpos, hf]
        simp [hbad]
      obtain ⟨reqs, hout⟩ := hout
      rw [hout]
      exact hcatch reqs

/-- Concrete environment with permission granted and a 500 response. -/
def c7Env : ScreenEnv :=
  { config := ⟨none, none⟩
    permStatus := "granted"
    positionResult := .ok ⟨⟨47, 8⟩⟩
    fetchResult := .ok ⟨500, "boom"⟩
    nowISO := "2026-10-11T00:00:00.000Z" }

/-- Witness for C7 at a concrete failing-response environment. -/
theorem c7_error_logged_and_cleanup_witness :
    (requestAndSend c7Env "dead").errorsLogged = 1 ∧
    (requestAndSend c7Env "dead").alerts = [errorAlert] ∧
    (requestAndSend c7Env "dead").loadingFinal = false := by
  have h := c7_error_logged_and_cleanup c7Env "dead" rfl
    (Or.inr (Or.inr ⟨⟨500, "boom"⟩, rfl, by decide⟩))
  exact ⟨h.1, h.2.1, h.2.2.1⟩

/-- Concrete environment refuting C8: permission granted but the
position read rejects, so the `fetch` line is never reached. -/
def c8Env : ScreenEnv :=
  { config := ⟨none, none⟩
    permStatus := "granted"
    positionResult := .error "location services disabled"
    fetchResult := .ok ⟨200, "unreachable"⟩
    nowISO := "2026-10-11T00:00:00.000Z" }

/-- C8 counterexample: an invocation with permission granted whose
position read throws performs zero network calls, not exactly one. -/
theorem c8_counterexample :
    c8Env.permStatus = "granted" ∧
    (requestAndSend c8Env "dead").requests.length = 0 :=
  ⟨rfl, rfl⟩

/-- C8 (amended): with permission granted and a successful position
read, exactly one POST is issued (even when the fetch rejects or the
response fails, so no retry occurs); every invocation whatsoever
issues at most one network call. -/
theorem c8_exactly_one_request (env : ScreenEnv) (type : String)
    (loc : Position)
    (hperm : env.permStatus = "granted")
    (hloc : env.positionResult = .ok loc) :
    (requestAndSend env type).requests.length = 1 ∧
    (∀ env2 : ScreenEnv, ∀ t2 : String,
      (requestAndSend env2 t2).requests.length ≤ 1) := by
  refine ⟨?_, requests_length_le_one⟩
  unfold requestAndSend
  rw [if_neg (by simp [hperm]), hloc]
  cases hf : env.fetchResult with
  | error e => rfl
  | ok resp =>
    by_cases hok : respOk resp
    · simp [hok]
    · simp [catchOutcome, hok]

/-- Concrete environment for the C8 witness: granted permission,
position fix obtained, fetch rejects — still exactly one request. -/
def c8GoodEnv : ScreenEnv :=
  { config := ⟨none, none⟩
    permStatus := "granted"
    positionResult := .ok ⟨⟨47, 8⟩⟩
    fetchResult := .error "network unreachable"
    nowISO := "2026-10-11T00:00:00.000Z" }

/-- Witness for the amended C8 at a concrete environment. -/
theorem c8_exactly_one_request_witness :
    (requestAndSend c8GoodEnv "injured").requests.length = 1 :=
  (c8_exactly_one_request c8GoodEnv "injured" ⟨⟨47, 8⟩⟩ rfl rfl).1

/-- C10: the button labeled "Sleeping Animal" submits a Report whose
type field is the literal "dead" (not "sleeping"), and the button
labeled "Injured Animal" submits type "injured": with permission
granted and a position fix, the single POST of each press carries that
type. -/
theorem c10_button_labels_vs_report_type (env : ScreenEnv) (loc : Position)
    (hperm : env.permStatus = "granted")
    (hloc : env.positionResult = .ok loc) :
    (pressButton env "Sleeping Animal").map
        (fun out => out.requests.map (fun r => r.payload.type)) =
      some ["dead"] ∧
    (pressButton env "Injured Animal").map
        (fun out => out.requests.map (fun r => r.payload.type)) =
      some ["injured"] := by
  have htypes : ∀ t : String,
      (requestAndSend env t).requests.map (fun r => r.payload.type) = [t] := by
    intro t
    unfold requestAndSend
    rw [if_neg (by simp [hperm]), hloc]
    cases hf : env.fetchResult with
    | error e => rfl
    | ok resp =>
      by_cases hok : respOk resp
      · simp [hok]
      · simp [catchOutcome, hok]
  constructor
  · show ((homeScreenButtons.lookup "Sleeping Animal").map
        (requestAndSend env)).map _ = _
    have : homeScreenButtons.lookup "Sleeping Animal" = some "dead" := rfl
    rw [this]
    simp [htypes "dead"]
  · show ((homeScreenButtons.lookup "Injured Animal").map
        (requestAndSend env)).map _ = _
    have : homeScreenButtons.lookup "Injured Animal" = some "injured" := rfl
    rw [this]
    simp [htypes "injured"]

/-- Concrete environment for the C10 witness. -/
def c10Env : ScreenEnv :=
  { config := ⟨none, none⟩
    permStatus := "granted"
    positionResult := .ok ⟨⟨47, 8⟩⟩
    fetchResult := .ok ⟨200, "ok"⟩
    nowISO := "2026-10-11T00:00:00.000Z" }

/-- Witness for C10 at a concrete environment. -/
theorem c10_button_labels_vs_report_type_witness :
    (pressButton c10Env "Sleeping Animal").map
        (fun out => out.requests.map (fun r => r.payload.type)) =
      some ["dead"] ∧
    (pressButton c10Env "Injured Animal").map
        (fun out => out.requests.map (fun r => r.payload.type)) =
      some ["injured"] :=
  c10_button_labels_vs_report_type c10Env ⟨⟨47, 8⟩⟩ rfl rfl

end AnimalReport
